import Mathlib

/-!
# Verification of the Learning_Platform vectorstore cache and lesson API

Shallow embedding of the repository's cache-coherent build-or-load pipeline
(`src/dataLoading.py`), the lesson orchestrator (`src/rag.py`) and the HTTP
façade (`src/main.py`).

The external collaborators (PDF loader, text splitter, embedding model,
FAISS index, LLM endpoint, filesystem) are modelled as oracle fields of a
`World` record: each oracle fixes the outcome of one external call in a
given execution, and the embedded functions are deterministic over `World`.
Machine-level details of `hashlib.md5` are out of scope (the spec treats the
digest as an opaque deterministic fingerprint); it is modelled by a concrete
deterministic 128-bit accumulator rendered as a 32-character hex string,
which preserves exactly the properties the code relies on: totality,
determinism, and fixed-length hex output.
-/

/-- The configured syllabus path (`PDF_FILE_PATH` in `dataLoading.py`). -/
def PDF_FILE_PATH : String := "SSS-Syllabus-Mathematics-for-STEAMM.pdf"

/-- The configured index directory (`VECTORSTORE_PATH` in `dataLoading.py`). -/
def VECTORSTORE_PATH : String := "SSS_Curriculum_faiss"

/-- The configured metadata file (`METADATA_FILE` in `dataLoading.py`). -/
def METADATA_FILE : String := "vectorstore_metadata.json"

/-- One hex digit, lowercase, as Python's `hexdigest` produces. -/
def hexDigit (n : Nat) : Char :=
  if n < 10 then Char.ofNat (48 + n) else Char.ofNat (87 + n)

/-- `n` rendered in base 16, zero-padded to exactly `width` characters. -/
def natToHexFixed (width n : Nat) : String :=
  String.mk ((List.range width).map fun i => hexDigit (n / 16 ^ (width - 1 - i) % 16))

/-- Model of `hashlib.md5(...).hexdigest()` over a byte sequence: an opaque
deterministic 128-bit digest written as 32 lowercase hex characters.  The
md5 compression function itself is an external library call, out of scope
per the spec; only determinism, totality and the output format matter to the
callers in `dataLoading.py`. -/
def md5Hex (bs : List Nat) : String :=
  natToHexFixed 32 (bs.foldl (fun acc b => (acc * 256 + b % 256 + 1) % 2 ^ 128) 1)

/-- A document/chunk as produced by the PDF loader and text splitter: page
content plus the metadata fields the repository reads (`source`, `page`).
`page` is `none` when the metadata dict lacks the key. -/
structure Doc where
  page_content : String
  source : Option String
  page : Option Int
deriving DecidableEq, Repr

/-- The in-memory FAISS index, opaque to the repository beyond the chunks it
was built from (`FAISS.from_documents(text_chunks, embeddings)`). -/
structure Index where
  chunks : List Doc
deriving DecidableEq, Repr

/-- The parsed content of `vectorstore_metadata.json`: the four keys
`save_metadata` writes, each `none` when absent from the dict (so the empty
dict `{}` is the all-`none` record). -/
structure MetaDict where
  file_hash : Option String
  num_documents : Option Nat
  num_chunks : Option Nat
  last_build : Option String
deriving DecidableEq, Repr

/-- `{}`: the record `get_metadata` returns when no metadata file exists. -/
def emptyMeta : MetaDict :=
  { file_hash := none, num_documents := none, num_chunks := none, last_build := none }

/-- One execution environment: the filesystem state at the three configured
paths plus one oracle per external call made by `dataLoading.py`, fixing
that call's outcome in this execution. -/
structure World where
  /-- Content of the syllabus PDF; `none` means the file does not exist. -/
  pdfBytes : Option (List Nat)
  /-- `Path(VECTORSTORE_PATH).exists()`. -/
  vsDirExists : Bool
  /-- `(Path(VECTORSTORE_PATH) / "index.faiss").exists()`. -/
  indexFaissExists : Bool
  /-- All artifact files `save_local` writes are present (index + auxiliary). -/
  artifactsComplete : Bool
  /-- The persisted artifacts deserialize under `FAISS.load_local`. -/
  deserializeOk : Bool
  /-- Parsed content of the metadata file; `none` means the file is absent. -/
  metaFile : Option MetaDict
  /-- The index `FAISS.load_local` yields when it succeeds. -/
  diskIndex : Index
  /-- Pages `PyPDFLoader(...).load()` returns when it succeeds. -/
  loadPages : List Doc
  /-- Chunks `RecursiveCharacterTextSplitter(...).split_documents` returns. -/
  splitChunks : List Doc
  /-- `loader.load()` raises in this build. -/
  loaderRaises : Bool
  /-- `split_documents` raises in this build. -/
  splitterRaises : Bool
  /-- `create_embeddings()` raises inside `build_vectorstore`. -/
  embedInitRaisesBuild : Bool
  /-- `FAISS.from_documents` raises in this build. -/
  fromDocumentsRaises : Bool
  /-- `Path(VECTORSTORE_PATH).mkdir(exist_ok=True)` raises (e.g. a
  `PermissionError`, or a `FileExistsError` when the path is a regular
  file); the directory is then not created. -/
  mkdirRaises : Bool
  /-- `vectorstore.save_local(VECTORSTORE_PATH)` succeeds. -/
  persistOk : Bool
  /-- The metadata file write inside `save_metadata` succeeds. -/
  metaWriteOk : Bool
  /-- Whether `index.faiss` is on disk after a failed `save_local` (the
  partial write is unspecified by the library). -/
  partialFaiss : Bool
  /-- Whether the artifact set happens to be complete after a failed
  `save_local`. -/
  partialArtifacts : Bool
  /-- Metadata-file content after a failed write inside `save_metadata`. -/
  partialMetaFile : Option MetaDict
  /-- `create_embeddings()` raises inside `load_vectorstore`. -/
  embedInitRaisesLoad : Bool
  /-- `datetime.now().isoformat()` at metadata-write time. -/
  now : String
deriving DecidableEq, Repr

/-- `get_file_hash(file_path)` from `dataLoading.py`: stream the file into an
md5 accumulator when it exists, and hash nothing (returning the empty-input
digest) when it does not.  Total: it never raises. -/
def get_file_hash (w : World) : String :=
  match w.pdfBytes with
  | some bs => md5Hex bs
  | none => md5Hex []

/-- `get_metadata()` from `dataLoading.py`: the parsed metadata file, or the
empty dict when the file does not exist. -/
def get_metadata (w : World) : MetaDict :=
  w.metaFile.getD emptyMeta

/-- `save_metadata(files_hash, num_documents, num_chunks)` from
`dataLoading.py`: overwrite the whole record, stamping the current time.
Returns the record and the updated world. -/
def save_metadata (w : World) (files_hash : String) (num_documents num_chunks : Nat) :
    MetaDict × World :=
  let metadata : MetaDict :=
    { file_hash := some files_hash
      num_documents := some num_documents
      num_chunks := some num_chunks
      last_build := some w.now }
  (metadata, { w with metaFile := some metadata })

/-- `should_rebuild_vectorstore()` from `dataLoading.py`: rebuild when the
index directory is missing, else when the stored `file_hash` differs from
the current digest of the source file. -/
def should_rebuild_vectorstore (w : World) : Bool :=
  if !w.vsDirExists then true
  else
    let current_hash := get_file_hash w
    let metadata := get_metadata w
    if metadata.file_hash ≠ some current_hash then true
    else false

/-- The observable of one `build_vectorstore` / `load_vectorstore` /
`initialize_vectorstore` call: the returned vectorstore (`ret`, `none` when
the Python function returns `None`), whether an exception propagated out of
the call instead of returning (`raised`), the filesystem afterwards, and
whether `build_vectorstore` was entered. -/
structure PyResult where
  ret : Option Index
  raised : Bool
  world : World
  builderCalled : Bool
deriving DecidableEq, Repr

/-- `build_vectorstore()` from `dataLoading.py`.  Missing source file returns
`(None, None)`.  A raise in the loader, the splitter or `create_embeddings`
is caught by the general handler, but the final `return vectorstore,
embeddings` then raises `UnboundLocalError` (`embeddings` was never bound),
which propagates.  A raise in `FAISS.from_documents` is caught and the
function returns `None` (with `embeddings` bound).  Then `Path(
VECTORSTORE_PATH).mkdir(exist_ok=True)`: it sits inside the outer try only,
so when it raises the outer handler catches it and execution falls through
to `return vectorstore, embeddings` — the NON-`None` in-memory index is
returned with no persist attempted and no metadata written.  When `mkdir`
succeeds, the inner try runs: on `save_local` failure the handler sets
`vectorstore = None` and no metadata is written; on success the file is
re-hashed and `save_metadata` runs (its own failure is caught by the same
inner handler, also yielding `None`). -/
def build_vectorstore (w : World) : PyResult :=
  match w.pdfBytes with
  | none => { ret := none, raised := false, world := w, builderCalled := true }
  | some _ =>
    if w.loaderRaises || w.splitterRaises || w.embedInitRaisesBuild then
      { ret := none, raised := true, world := w, builderCalled := true }
    else if w.fromDocumentsRaises then
      { ret := none, raised := false, world := w, builderCalled := true }
    else if w.mkdirRaises then
      { ret := some { chunks := w.splitChunks }, raised := false, world := w,
        builderCalled := true }
    else
      let w1 : World := { w with vsDirExists := true }
      if w.persistOk then
        let w2 : World := { w1 with indexFaissExists := true, artifactsComplete := true }
        if w.metaWriteOk then
          let files_hash := get_file_hash w2
          let w3 := (save_metadata w2 files_hash w.loadPages.length w.splitChunks.length).2
          { ret := some { chunks := w.splitChunks }, raised := false, world := w3,
            builderCalled := true }
        else
          { ret := none, raised := false, world := { w2 with metaFile := w.partialMetaFile },
            builderCalled := true }
      else
        { ret := none, raised := false,
          world := { w1 with indexFaissExists := w.partialFaiss,
                             artifactsComplete := w.partialArtifacts },
          builderCalled := true }

/-- `load_vectorstore()` from `dataLoading.py`: if `index.faiss` is missing,
fall back to `build_vectorstore`; otherwise try `create_embeddings` and
`FAISS.load_local`, and on any failure fall back to `build_vectorstore`.
`FAISS.load_local` succeeds exactly when the persisted artifact set is
complete and deserializes (the index library's interface contract, out of
scope per the spec). -/
def load_vectorstore (w : World) : PyResult :=
  if !w.indexFaissExists then build_vectorstore w
  else if w.embedInitRaisesLoad then build_vectorstore w
  else if w.artifactsComplete && w.deserializeOk then
    { ret := some w.diskIndex, raised := false, world := w, builderCalled := false }
  else build_vectorstore w

/-- `initialize_vectorstore(force_rebuild)` from `dataLoading.py`. -/
def initialize_vectorstore (w : World) (force_rebuild : Bool) : PyResult :=
  if force_rebuild || should_rebuild_vectorstore w then build_vectorstore w
  else load_vectorstore w

/-- The status record `check_status()` from `dataLoading.py` returns.
`status` reads the module-global `vectorstore` bound at import time. -/
structure StatusReport where
  status : String
  last_build : Option String
  num_chunks : Option Nat
  source_file : String
deriving DecidableEq, Repr

/-- `check_status()` from `dataLoading.py`: `globalStore` is the module-level
`vectorstore` global set when the module was imported. -/
def check_status (globalStore : Option Index) (w : World) : StatusReport :=
  let metadata := get_metadata w
  { status := if globalStore.isSome then "ready" else "error"
    last_build := metadata.last_build
    num_chunks := metadata.num_chunks
    source_file := PDF_FILE_PATH }

/-- A handle on the chat LLM (`ChatHuggingFace` in `rag.py`), opaque. -/
structure LLMHandle where
  id : Nat
deriving DecidableEq, Repr

/-- The per-subject RAG components `create_rag_components` assembles in
`rag.py`: a retriever over a vectorstore and an LLM chain. -/
structure RagComponents where
  retrieverStore : Index
  llm : LLMHandle
deriving DecidableEq, Repr

/-- `create_rag_components(subject_name, vectorstore, llm)` from `rag.py`:
returns `None` (never raises) when either the vectorstore or the LLM is
`None`, else the retriever + LLM-chain pair. -/
def create_rag_components (vectorstore : Option Index) (llm : Option LLMHandle) :
    Option RagComponents :=
  match vectorstore, llm with
  | some vs, some l => some { retrieverStore := vs, llm := l }
  | _, _ => none

/-- What one `generate_lesson` call in `rag.py` prints: the not-ready notice,
the generated lesson text, or the caught exception's message. -/
inductive GenEvent where
  | notReady
  | lessonPrinted (text : String)
  | errorPrinted (msg : String)
deriving DecidableEq, Repr

/-- `generate_lesson(subject_name, topic, level, pace)` from `rag.py`.
`components` is `RAG_COMPONENTS.get(subject_name)`; `retrievalOutcome` and
`llmOutcome` are the oracles for `retriever.get_relevant_documents` and
`llm_chain.invoke`.  The pair returned is (what the call prints, the Python
return value): the function body has no `return <value>` statement, so the
caller receives `None` on success and on both failure paths alike — failures
are printed, caught, and reflected to the caller only as an absent result. -/
def generate_lesson (components : Option RagComponents)
    (retrievalOutcome : Except String (List Doc))
    (llmOutcome : Except String String) : GenEvent × Option String :=
  match components with
  | none => (GenEvent.notReady, none)
  | some _ =>
    match retrievalOutcome with
    | Except.error e => (GenEvent.errorPrinted e, none)
    | Except.ok _docs =>
      match llmOutcome with
      | Except.error e => (GenEvent.errorPrinted e, none)
      | Except.ok text => (GenEvent.lessonPrinted text, none)

/-- An HTTP error response: `HTTPException(status_code, detail)` in
`main.py`. -/
structure HTTPError where
  status_code : Nat
  detail : String
deriving DecidableEq, Repr

/-- One entry of the `sources` list in a `/lesson` response (`SourceDocument`
Pydantic model in `main.py`). -/
structure SourceDocument where
  source : String
  page : Option Int
  content_preview : String
deriving DecidableEq, Repr

/-- The `/lesson` success body (`LessonResponse` Pydantic model). -/
structure LessonResponse where
  topic : String
  sss_level : String
  learning_pace : String
  lesson_notes : String
  sources : List SourceDocument
  status : String
deriving DecidableEq, Repr

/-- The dict `current_rag_chain.invoke` returns in `main.py`: the generated
text under `result`, and the retrieved chunks under `source_documents` when
that key is present. -/
structure ChainResult where
  result : String
  source_documents : Option (List Doc)
deriving DecidableEq, Repr

/-- One iteration of the source-processing loop in `create_lesson`
(`main.py`): `source` defaults to `"Curriculum Syllabus"`, `page` is the
0-indexed metadata page (defaulting to 0 when the key is absent) plus one,
and `content_preview` is the first 150 characters of the chunk followed by
`"..."`. -/
def mkSourceDocument (doc : Doc) : SourceDocument :=
  { source := doc.source.getD "Curriculum Syllabus"
    page := some (doc.page.getD 0 + 1)
    content_preview := doc.page_content.take 150 ++ "..." }

/-- `create_lesson(request)` from `main.py` (`POST /lesson`): 503 when the
global RAG chain is `None`, 500 wrapping the exception text when the chain
invocation raises, and otherwise the success body with the processed
sources.  `invokeOutcome` is the oracle for `current_rag_chain.invoke`. -/
def create_lesson (chain : Option RagComponents) (invokeOutcome : Except String ChainResult)
    (topic sss_level pace : String) : Except HTTPError LessonResponse :=
  match chain with
  | none =>
    Except.error
      { status_code := 503
        detail := "RAG system is not initialized. Check /status and try rebuilding the vectorstore." }
  | some _ =>
    match invokeOutcome with
    | Except.error e =>
      Except.error { status_code := 500, detail := "Lesson generation failed: " ++ e }
    | Except.ok result =>
      Except.ok
        { topic := topic
          sss_level := sss_level
          learning_pace := pace
          lesson_notes := result.result
          sources := (result.source_documents.getD []).map mkSourceDocument
          status := "success" }

/-- The `/rebuild` success body (`RebuildResponse` Pydantic model). -/
structure RebuildResponse where
  message : String
  status : String
  metadata : StatusReport
deriving DecidableEq, Repr

/-- Modelled from the spec: `main.py` calls `create_rag_chain(new_vectorstore,
llm)`, a symbol the repository does not define (the active `rag.py` exports
only the three-argument `create_rag_components`).  Per §7 of the spec,
build-time errors are converted to clean failure values, never left as
faults, so — like `create_rag_components`, which guards `if vectorstore is
None or llm is None: return None` — the chain constructor returns `None`
without raising when its vectorstore is `None`. -/
def create_rag_chain (vectorstore : Option Index) (llm : Option LLMHandle) :
    Option RagComponents :=
  create_rag_components vectorstore llm

/-- `rebuild_vectorstore_endpoint()` from `main.py` (`POST /rebuild`): runs
`initialize_vectorstore(force_rebuild=True)`, rebuilds the chain from the
returned vectorstore, and answers success; its `except` clause, hence the
500 error path, is reached only when an exception is raised.  `globalStore`
is the `dataLoading` module-global `vectorstore` that `check_status` reads
(the rebuild does not reassign it).  Returns the HTTP outcome and the new
value of `current_rag_chain`. -/
def rebuild_vectorstore_endpoint (w : World) (llm : Option LLMHandle)
    (globalStore : Option Index) (priorChain : Option RagComponents) :
    Except HTTPError RebuildResponse × Option RagComponents :=
  let r := initialize_vectorstore w true
  if r.raised then
    (Except.error { status_code := 500, detail := "exception during rebuild" }, priorChain)
  else
    (Except.ok
      { message := "Vectorstore successfully rebuilt and RAG chain updated."
        status := "success"
        metadata := check_status globalStore r.world },
     create_rag_chain r.ret llm)

/-- A concrete syllabus chunk, used by the witnesses. -/
def docA : Doc :=
  { page_content := "Quadratic equations: solve ax^2 + bx + c = 0 by factorization."
    source := some PDF_FILE_PATH
    page := some 4 }

/-- A concrete execution environment with a present source file, a complete
valid cache, matching metadata, and every external call succeeding. -/
def W0 : World :=
  { pdfBytes := some [1, 2, 3]
    vsDirExists := true
    indexFaissExists := true
    artifactsComplete := true
    deserializeOk := true
    metaFile := some
      { file_hash := some (md5Hex [1, 2, 3])
        num_documents := some 1
        num_chunks := some 2
        last_build := some "2025-01-01T00:00:00" }
    diskIndex := { chunks := [docA] }
    loadPages := [docA]
    splitChunks := [docA, docA]
    loaderRaises := false
    splitterRaises := false
    embedInitRaisesBuild := false
    fromDocumentsRaises := false
    mkdirRaises := false
    persistOk := true
    metaWriteOk := true
    partialFaiss := false
    partialArtifacts := false
    partialMetaFile := none
    embedInitRaisesLoad := false
    now := "2025-02-02T00:00:00" }

/-- `W0` with the persist step (`save_local`) failing. -/
def WP : World := { W0 with persistOk := false }

/-- Concrete RAG components for a subject, used by the witnesses. -/
def C0 : RagComponents := { retrieverStore := { chunks := [docA] }, llm := { id := 0 } }

/-- `build_vectorstore` is the builder: every path through it marks the
builder as invoked. -/
theorem builderCalled_build (w : World) : (build_vectorstore w).builderCalled = true := by
  unfold build_vectorstore
  cases w.pdfBytes
  · rfl
  · split_ifs <;> rfl

/-- `natToHexFixed` always produces exactly `width` characters. -/
theorem length_natToHexFixed (width n : Nat) : (natToHexFixed width n).length = width := by
  rw [natToHexFixed, String.length_mk, List.length_map, List.length_range]

/-- Python's `s[:150]` keeps at most 150 characters. -/
theorem length_take_le_150 (s : String) : (s.take 150).length ≤ 150 := by
  rcases h : s.take 150 with ⟨l⟩
  have hl : l = s.data.take 150 := by
    have hd := String.data_take s 150
    rw [h] at hd
    simpa using hd
  rw [String.length_mk, hl, List.length_take]
  exact min_le_left _ _

/-- Normal form of a fully successful `build_vectorstore` call: the index
over the split chunks is returned, the directory and artifacts are on disk,
and the metadata record holds the fresh fingerprint and counts. -/
theorem build_success_eq (w : World) (bs : List Nat)
    (hp : w.pdfBytes = some bs) (hl : w.loaderRaises = false) (hs : w.splitterRaises = false)
    (he : w.embedInitRaisesBuild = false) (hf : w.fromDocumentsRaises = false)
    (hmk : w.mkdirRaises = false) (hpk : w.persistOk = true) (hm : w.metaWriteOk = true) :
    build_vectorstore w =
      { ret := some { chunks := w.splitChunks }
        raised := false
        world :=
          { w with vsDirExists := true, indexFaissExists := true, artifactsComplete := true,
                   metaFile := some
                     { file_hash := some (md5Hex bs)
                       num_documents := some w.loadPages.length
                       num_chunks := some w.splitChunks.length
                       last_build := some w.now } }
        builderCalled := true } := by
  unfold build_vectorstore
  rw [hp]
  simp [hl, hs, he, hf, hmk, hpk, hm, save_metadata, get_file_hash, hp]

/-- The mkdir-failure path: with every earlier stage succeeding and
`Path(VECTORSTORE_PATH).mkdir` raising, the outer handler catches the error
and `build_vectorstore` returns the non-`None` in-memory index while
nothing is persisted and the metadata file is left untouched. -/
theorem build_mkdir_failure_keeps_stale_metadata (w : World) (bs : List Nat)
    (hp : w.pdfBytes = some bs)
    (hl : w.loaderRaises = false) (hs : w.splitterRaises = false)
    (he : w.embedInitRaisesBuild = false) (hf : w.fromDocumentsRaises = false)
    (hmk : w.mkdirRaises = true) :
    build_vectorstore w =
      { ret := some { chunks := w.splitChunks }, raised := false, world := w,
        builderCalled := true } := by
  unfold build_vectorstore
  rw [hp]
  simp [hl, hs, he, hf, hmk]

/-- C1: when the index directory exists, the stored metadata fingerprint
equals the fingerprint currently computed from the source document, and the
persisted index loads successfully, `initialize_vectorstore(force_rebuild=
False)` returns the loaded cached index, leaves the world untouched, and
never invokes `build_vectorstore`. -/
theorem C1_cached_load_skips_builder (w : World)
    (hdir : w.vsDirExists = true)
    (hhash : (get_metadata w).file_hash = some (get_file_hash w))
    (hfaiss : w.indexFaissExists = true)
    (hembed : w.embedInitRaisesLoad = false)
    (hart : w.artifactsComplete = true)
    (hdes : w.deserializeOk = true) :
    initialize_vectorstore w false =
      { ret := some w.diskIndex, raised := false, world := w, builderCalled := false } := by
  unfold initialize_vectorstore should_rebuild_vectorstore load_vectorstore
  simp [hdir, hhash, hfaiss, hembed, hart, hdes]

/-- C1 witness: the concrete valid-cache world `W0` loads without building. -/
theorem C1_witness :
    initialize_vectorstore W0 false =
      { ret := some W0.diskIndex, raised := false, world := W0, builderCalled := false } :=
  C1_cached_load_skips_builder W0 rfl rfl rfl rfl rfl rfl

/-- C2: whatever the metadata file holds (any fields, or absent), a missing
index directory makes the rebuild decision `True` and makes
`initialize_vectorstore(force_rebuild=False)` enter the builder. -/
theorem C2_missing_dir_always_builds (w : World) (hdir : w.vsDirExists = false) :
    ∀ md : Option MetaDict,
      should_rebuild_vectorstore { w with metaFile := md } = true ∧
      (initialize_vectorstore { w with metaFile := md } false).builderCalled = true := by
  intro md
  have hsr : should_rebuild_vectorstore { w with metaFile := md } = true := by
    unfold should_rebuild_vectorstore
    simp [hdir]
  refine ⟨hsr, ?_⟩
  unfold initialize_vectorstore
  rw [hsr]
  simpa using builderCalled_build { w with metaFile := md }

/-- C2 witness: with the directory missing and no metadata file, the
decision is a rebuild and the builder runs. -/
theorem C2_witness :
    should_rebuild_vectorstore { { W0 with vsDirExists := false } with metaFile := none } = true ∧
    (initialize_vectorstore { { W0 with vsDirExists := false } with metaFile := none }
      false).builderCalled = true :=
  C2_missing_dir_always_builds { W0 with vsDirExists := false } rfl none

/-- C3: if `save_local` fails during a build that reached the persist step
(source present, loader, splitter, embedder and index assembly all ran), no
metadata write occurs: the metadata file after the failed build is exactly
the metadata file before it. -/
theorem C3_persist_failure_preserves_metadata (w : World) (bs : List Nat)
    (hpdf : w.pdfBytes = some bs)
    (hload : w.loaderRaises = false) (hsplit : w.splitterRaises = false)
    (hembed : w.embedInitRaisesBuild = false) (hfrom : w.fromDocumentsRaises = false)
    (hpersist : w.persistOk = false) :
    (build_vectorstore w).world.metaFile = w.metaFile := by
  unfold build_vectorstore
  rw [hpdf]
  cases hmk : w.mkdirRaises <;>
    simp [hload, hsplit, hembed, hfrom, hpersist, hmk]

/-- C3 witness: in `WP` (persist fails) the metadata record is untouched. -/
theorem C3_witness : (build_vectorstore WP).world.metaFile = WP.metaFile :=
  C3_persist_failure_preserves_metadata WP [1, 2, 3] rfl rfl rfl rfl rfl rfl

/-- C4 counterexample: in the concrete world `WP` the source file is
present, loading, chunking, embedding and index assembly all succeed and
only the persist step fails, yet `build_vectorstore` returns `None` for the
vectorstore — its `except` handler deliberately discards the usable
in-memory index (`vectorstore = None  # Ensure we return failure status`),
refuting the claim that the in-memory index is still returned. -/
theorem C4_counterexample :
    WP.pdfBytes = some [1, 2, 3] ∧ WP.loaderRaises = false ∧ WP.splitterRaises = false ∧
    WP.embedInitRaisesBuild = false ∧ WP.fromDocumentsRaises = false ∧
    WP.mkdirRaises = false ∧ WP.persistOk = false ∧ (build_vectorstore WP).ret = none :=
  ⟨rfl, rfl, rfl, rfl, rfl, rfl, rfl, rfl⟩

/-- C4 (amended): for every build in which chunking and embedding succeed,
the index directory is created, but the persist step (`save_local`) fails,
`build_vectorstore` returns `None` for the vectorstore (without raising): a
persist failure IS a hard error for the in-process handle, the in-memory
index is not handed to the caller. -/
theorem C4_persist_failure_returns_none (w : World) (bs : List Nat)
    (hpdf : w.pdfBytes = some bs)
    (hload : w.loaderRaises = false) (hsplit : w.splitterRaises = false)
    (hembed : w.embedInitRaisesBuild = false) (hfrom : w.fromDocumentsRaises = false)
    (hmkdir : w.mkdirRaises = false) (hpersist : w.persistOk = false) :
    (build_vectorstore w).ret = none ∧ (build_vectorstore w).raised = false := by
  unfold build_vectorstore
  rw [hpdf]
  simp [hload, hsplit, hembed, hfrom, hmkdir, hpersist]

/-- C4 witness: the amended statement evaluated at `WP`. -/
theorem C4_witness : (build_vectorstore WP).ret = none ∧ (build_vectorstore WP).raised = false :=
  C4_persist_failure_returns_none WP [1, 2, 3] rfl rfl rfl rfl rfl rfl rfl

/-- C5: for every successful build — source file present; loader, splitter,
embedder and index assembly succeed; the directory creation, the persist
step (`save_local`) and the metadata write all succeed — the metadata
record written at the end has `num_chunks` equal to the number of chunks
the splitter produced, `file_hash` equal to the fingerprint of the source
file computed after the persist step (on the post-build world),
`num_documents` equal to the loaded page count and `last_build` the current
timestamp; and the returned vectorstore is the in-memory index over exactly
those chunks.  The stages are named explicitly because a non-`None` return
alone does not imply a fresh metadata record: when `mkdir` raises, the
outer handler returns the in-memory index with no metadata written. -/
theorem C5_successful_build_metadata (w : World) (bs : List Nat)
    (hp : w.pdfBytes = some bs)
    (hl : w.loaderRaises = false) (hs : w.splitterRaises = false)
    (he : w.embedInitRaisesBuild = false) (hf : w.fromDocumentsRaises = false)
    (hmk : w.mkdirRaises = false) (hpk : w.persistOk = true) (hm : w.metaWriteOk = true) :
    (build_vectorstore w).world.metaFile =
      some { file_hash := some (get_file_hash (build_vectorstore w).world)
             num_documents := some w.loadPages.length
             num_chunks := some w.splitChunks.length
             last_build := some w.now } ∧
    (build_vectorstore w).ret = some { chunks := w.splitChunks } := by
  rw [build_success_eq w bs hp hl hs he hf hmk hpk hm]
  exact ⟨by simp [get_file_hash, hp], rfl⟩

/-- C5 witness: the successful build in `W0` writes the expected record. -/
theorem C5_witness :
    (build_vectorstore W0).world.metaFile =
      some { file_hash := some (get_file_hash (build_vectorstore W0).world)
             num_documents := some W0.loadPages.length
             num_chunks := some W0.splitChunks.length
             last_build := some W0.now } ∧
    (build_vectorstore W0).ret = some { chunks := W0.splitChunks } :=
  C5_successful_build_metadata W0 [1, 2, 3] rfl rfl rfl rfl rfl rfl rfl rfl

/-- C6: `load_vectorstore` yields a loaded index without entering the
builder only when the persisted artifact set is complete and deserializes
(what makes `FAISS.load_local` succeed); with `index.faiss` missing, an
incomplete artifact set or a deserialization failure it falls back to
`build_vectorstore` — a partial on-disk index is never treated as valid. -/
theorem C6_no_partial_index_valid (w : World) :
    ((load_vectorstore w).builderCalled = false →
      w.artifactsComplete = true ∧ w.deserializeOk = true ∧
      (load_vectorstore w).ret = some w.diskIndex) ∧
    (w.indexFaissExists = false ∨ w.artifactsComplete = false ∨ w.deserializeOk = false →
      load_vectorstore w = build_vectorstore w) := by
  constructor
  · intro h
    unfold load_vectorstore at h ⊢
    split_ifs at h ⊢ with h1 h2 h3
    · rw [builderCalled_build w] at h; exact absurd h (by simp)
    · rw [builderCalled_build w] at h; exact absurd h (by simp)
    · simp at h3
      exact ⟨h3.1, h3.2, rfl⟩
    · rw [builderCalled_build w] at h; exact absurd h (by simp)
  · intro hcase
    unfold load_vectorstore
    split_ifs with h1 h2 h3
    · rfl
    · rfl
    · exfalso
      simp at h1 h3
      rcases hcase with hc | hc | hc
      · rw [hc] at h1; exact absurd h1 (by simp)
      · rw [hc] at h3; exact absurd h3.1 (by simp)
      · rw [hc] at h3; exact absurd h3.2 (by simp)
    · rfl

/-- C6 witness: the conjunction evaluated at the valid-cache world `W0`. -/
theorem C6_witness :
    ((load_vectorstore W0).builderCalled = false →
      W0.artifactsComplete = true ∧ W0.deserializeOk = true ∧
      (load_vectorstore W0).ret = some W0.diskIndex) ∧
    (W0.indexFaissExists = false ∨ W0.artifactsComplete = false ∨ W0.deserializeOk = false →
      load_vectorstore W0 = build_vectorstore W0) :=
  C6_no_partial_index_valid W0

/-- C7: `get_file_hash` is a total function (it never raises) returning a
fixed-length 32-character hex digest; on a missing file it returns the
deterministic empty-input digest, and with the file absent any stored
fingerprint different from that sentinel makes `should_rebuild_vectorstore`
decide to rebuild. -/
theorem C7_fingerprint_sentinel (w : World) :
    (get_file_hash w).length = 32 ∧
    (w.pdfBytes = none → get_file_hash w = md5Hex []) ∧
    (∀ h : String, w.pdfBytes = none → w.vsDirExists = true →
      (get_metadata w).file_hash = some h → h ≠ md5Hex [] →
      should_rebuild_vectorstore w = true) := by
  refine ⟨?_, ?_, ?_⟩
  · unfold get_file_hash
    cases w.pdfBytes <;> simp [md5Hex, length_natToHexFixed]
  · intro hn
    simp [get_file_hash, hn]
  · intro h hn hd hm hne
    unfold should_rebuild_vectorstore
    simp [hd, hm, get_file_hash, hn, hne]

/-- A world whose source document is missing while stale metadata and a
stale index directory are still present, used by the C7 witness. -/
def WA : World :=
  { W0 with
    pdfBytes := none
    metaFile := some
      { file_hash := some "0123456789abcdef0123456789abcdef"
        num_documents := some 1
        num_chunks := some 2
        last_build := some "2025-01-01T00:00:00" } }

/-- C7 witness: in `WA` the digest has 32 characters, equals the empty-input
sentinel, and the stale stored fingerprint forces a rebuild. -/
theorem C7_witness :
    (get_file_hash WA).length = 32 ∧ get_file_hash WA = md5Hex [] ∧
    should_rebuild_vectorstore WA = true :=
  ⟨(C7_fingerprint_sentinel WA).1,
   (C7_fingerprint_sentinel WA).2.1 rfl,
   (C7_fingerprint_sentinel WA).2.2 "0123456789abcdef0123456789abcdef" rfl rfl rfl
     (by decide)⟩

/-- C8 counterexample: in `rag.py`, `generate_lesson` hands its caller the
very same value — `None` — when no components exist for the subject, when
the provider call errors, and when generation succeeds: the failure is
printed and then swallowed into an absent lesson result, with no
`ComponentsNotReady` or `GenerationFailure` signal reaching the caller. -/
theorem C8_counterexample :
    (generate_lesson none (Except.ok [docA]) (Except.ok "lesson")).2 = none ∧
    (generate_lesson (some C0) (Except.ok [docA]) (Except.error "provider down")).2 = none ∧
    (generate_lesson (some C0) (Except.ok [docA]) (Except.ok "lesson")).2 = none :=
  ⟨rfl, rfl, rfl⟩

/-- C8 (amended): only the HTTP façade reports lesson-generation failures to
its caller — `create_lesson` in `main.py` answers 503 when no RAG chain is
ready and 500 when the provider call errors — while `rag.py`'s
`generate_lesson` returns `None` to its caller in every case (success and
both failures alike), printing the failure instead of signalling it. -/
theorem C8_facade_reports_rag_swallows
    (c : Option RagComponents) (r : Except String (List Doc)) (l : Except String String)
    (inv : Except String ChainResult) (topic level pace e : String) :
    (generate_lesson c r l).2 = none ∧
    (generate_lesson none r l).1 = GenEvent.notReady ∧
    create_lesson none inv topic level pace =
      Except.error
        { status_code := 503
          detail := "RAG system is not initialized. Check /status and try rebuilding the vectorstore." } ∧
    (∀ ch : RagComponents,
      create_lesson (some ch) (Except.error e) topic level pace =
        Except.error { status_code := 500, detail := "Lesson generation failed: " ++ e }) := by
  refine ⟨?_, rfl, rfl, fun ch => rfl⟩
  cases c with
  | none => rfl
  | some c' =>
    cases r with
    | error e' => rfl
    | ok docs =>
      cases l with
      | error e' => rfl
      | ok t => rfl

/-- C9: the successful `POST /lesson` response is fully determined: status
`"success"`, and each source entry carries `page` equal to the chunk's
0-indexed page metadata plus one with a missing page defaulting to 0 (hence
conflated with page 0), and a `content_preview` of at most 150 characters of
the chunk text followed by an ellipsis. -/
theorem C9_lesson_sources_shape (ch : RagComponents) (res : ChainResult)
    (topic level pace : String) :
    create_lesson (some ch) (Except.ok res) topic level pace =
      Except.ok
        { topic := topic
          sss_level := level
          learning_pace := pace
          lesson_notes := res.result
          sources := (res.source_documents.getD []).map mkSourceDocument
          status := "success" } ∧
    (∀ d : Doc,
      (mkSourceDocument d).page = some (d.page.getD 0 + 1) ∧
      (mkSourceDocument d).content_preview = d.page_content.take 150 ++ "..." ∧
      (d.page_content.take 150).length ≤ 150) ∧
    (∀ d : Doc,
      (mkSourceDocument { d with page := none }).page =
        (mkSourceDocument { d with page := some 0 }).page) := by
  refine ⟨rfl, ?_, fun d => rfl⟩
  intro d
  exact ⟨rfl, rfl, length_take_le_150 _⟩

/-- C10: when the forced rebuild fails with the source file absent,
`initialize_vectorstore(force_rebuild=True)` returns `None` without raising,
and `POST /rebuild` — whose error path fires only on a raised exception —
still answers HTTP success with `status = "success"` while the new RAG
chain is `None`. -/
theorem C10_rebuild_success_despite_failure (w : World)
    (llm : Option LLMHandle) (gs : Option Index) (pc : Option RagComponents)
    (hpdf : w.pdfBytes = none) :
    (initialize_vectorstore w true).ret = none ∧
    (initialize_vectorstore w true).raised = false ∧
    (rebuild_vectorstore_endpoint w llm gs pc).1 =
      Except.ok
        { message := "Vectorstore successfully rebuilt and RAG chain updated."
          status := "success"
          metadata := check_status gs (initialize_vectorstore w true).world } ∧
    (rebuild_vectorstore_endpoint w llm gs pc).2 = none := by
  have hb : build_vectorstore w =
      { ret := none, raised := false, world := w, builderCalled := true } := by
    unfold build_vectorstore
    rw [hpdf]
  have hi : initialize_vectorstore w true =
      { ret := none, raised := false, world := w, builderCalled := true } := by
    unfold initialize_vectorstore
    simp [hb]
  refine ⟨by rw [hi], by rw [hi], ?_, ?_⟩
  · unfold rebuild_vectorstore_endpoint
    rw [hi]
    rfl
  · unfold rebuild_vectorstore_endpoint
    rw [hi]
    cases llm <;> rfl

/-- C10 witness: the endpoint's outcome with the source file deleted. -/
theorem C10_witness :
    (initialize_vectorstore { W0 with pdfBytes := none } true).ret = none ∧
    (initialize_vectorstore { W0 with pdfBytes := none } true).raised = false ∧
    (rebuild_vectorstore_endpoint { W0 with pdfBytes := none } (some { id := 0 }) none none).1 =
      Except.ok
        { message := "Vectorstore successfully rebuilt and RAG chain updated."
          status := "success"
          metadata :=
            check_status none (initialize_vectorstore { W0 with pdfBytes := none } true).world } ∧
    (rebuild_vectorstore_endpoint { W0 with pdfBytes := none } (some { id := 0 }) none none).2 =
      none :=
  C10_rebuild_success_despite_failure { W0 with pdfBytes := none } (some { id := 0 }) none none rfl
